import Mathlib

/-!
Shallow embedding of the dex-rs Hyperliquid client core:
the subscription supervisor and frame demultiplexer
(`dex-rs-exchanges/hyperliquid/src/ws.rs`), the signing pipeline
(`dex-rs-exchanges/hyperliquid/src/signer.rs`, `client.rs`), and the
WebSocket transport read loop (`dex-rs-core/src/ws/tokio_fastws.rs`).

Machine integers are modelled as `Nat`; Rust `f64` values are modelled by
`FVal` (NaN / signed infinity / an exact rational), which is all the
fidelity the numeric-policy claims need; fallible Rust code returns
`Except`-style results, and possible panics are modelled with the
`PRes` outcome type.
-/

namespace DexRs

/-- `DexError` from `dex-rs-core/src/error.rs` (the variants this core uses). -/
inductive DexError
  | parse (s : String)
  | ws (s : String)
  | unsupported (s : String)
  | other (s : String)
deriving DecidableEq

/-- Outcome of running a piece of Rust code that may return a value,
return an error, or panic. -/
inductive PRes (α : Type)
  | ok (a : α)
  | err (e : DexError)
  | panic (msg : String)
deriving DecidableEq

def PRes.isOk {α : Type} : PRes α → Bool
  | .ok _ => true
  | _ => false

def PRes.isErr {α : Type} : PRes α → Bool
  | .err _ => true
  | _ => false

/-- Model of a Rust `f64` value as far as the demultiplexer observes it:
NaN, a signed infinity, or an exact (dyadic) rational. -/
inductive FVal
  | nan
  | inf (neg : Bool)
  | num (q : ℚ)
deriving DecidableEq

/-- `StreamKind` from `dex-rs-core/src/traits.rs`. -/
inductive StreamKind
  | trades
  | bbo
  | l2Book
  | orders
  | fills
deriving DecidableEq

/-- `Side` from `dex-rs-types/src/lib.rs`. -/
inductive Side
  | buy
  | sell
deriving DecidableEq

/- ---------- model of Rust `str::parse::<f64>` ---------- -/

def digitsToNat (l : List Char) : Nat :=
  l.foldl (fun a c => 10 * a + (c.toNat - 48)) 0

/-- Exponent suffix of a float literal: empty, or `e`/`E`, optional sign,
then at least one digit and nothing else. -/
def parseExpSuffix (l : List Char) (mant : ℚ) : Option ℚ :=
  match l with
  | [] => some mant
  | e :: rest =>
    if e = 'e' ∨ e = 'E' then
      let (eneg, rest') :=
        match rest with
        | '+' :: r => (false, r)
        | '-' :: r => (true, r)
        | r => (false, r)
      let (ds, tail) := rest'.span Char.isDigit
      if ds.isEmpty ∨ ¬ tail.isEmpty then none
      else
        let ex := digitsToNat ds
        some (if eneg then mant / 10 ^ ex else mant * 10 ^ ex)
    else none

/-- Decimal part of a float literal: digits, optional `.` plus digits
(at least one digit overall), optional exponent. -/
def parseNumber (l : List Char) : Option ℚ :=
  let (ip, r1) := l.span Char.isDigit
  match r1 with
  | '.' :: r2 =>
    let (fp, r3) := r2.span Char.isDigit
    if ip.isEmpty ∧ fp.isEmpty then none
    else
      let mant : ℚ := (digitsToNat (ip ++ fp) : ℚ) / 10 ^ fp.length
      parseExpSuffix r3 mant
  | _ =>
    if ip.isEmpty then none
    else parseExpSuffix r1 (digitsToNat ip : ℚ)

/-- Model of Rust `"<s>".parse::<f64>()`: optional sign, then the
case-insensitive keywords `inf`/`infinity`/`nan` or a decimal number.
Crucially, `"NaN"` parses successfully (to NaN) in Rust. -/
def parseF64 (s : String) : Option FVal :=
  let (neg, l) :=
    match s.data with
    | '+' :: r => (false, r)
    | '-' :: r => (true, r)
    | r => (false, r)
  if l.isEmpty then none
  else
    let low := l.map Char.toLower
    if low = "inf".data ∨ low = "infinity".data then some (.inf neg)
    else if low = "nan".data then some .nan
    else
      match parseNumber l with
      | some q => some (.num (if neg then -q else q))
      | none => none

/- ---------- `price` / `qty` from dex-rs-types ---------- -/

/-- `Price`/`Qty` are `NotNan<f64>`: any non-NaN float value. -/
abbrev NotNanF := FVal

/-- `price(v)` from `dex-rs-types/src/lib.rs`: `NotNan::new(v).expect("NaN price")`,
i.e. panics exactly on NaN. -/
def price (v : FVal) : PRes NotNanF :=
  match v with
  | .nan => .panic "NaN price"
  | v => .ok v

/-- `qty(v)` from `dex-rs-types/src/lib.rs`: panics exactly on NaN. -/
def qty (v : FVal) : PRes NotNanF :=
  match v with
  | .nan => .panic "NaN qty"
  | v => .ok v

/- ---------- JSON values (simd_json BorrowedValue) ---------- -/

/-- Structured JSON value, the model of a parsed inbound frame
(`simd_json::BorrowedValue`). -/
inductive Json
  | null
  | bool (b : Bool)
  | num (q : ℚ)
  | str (s : String)
  | arr (xs : List Json)
  | obj (fields : List (String × Json))

/-- `val.get(key)` on a borrowed JSON value: field lookup on objects,
`None` on everything else. -/
def Json.get : Json → String → Option Json
  | .obj fields, k => (fields.find? (fun p => p.1 == k)).map (fun p => p.2)
  | _, _ => none

def Json.asStr : Json → Option String
  | .str s => some s
  | _ => none

/-- Deserializing a `u64` field: an integral, in-range JSON number. -/
def Json.asU64 : Json → Option Nat
  | .num q => if q.den = 1 ∧ 0 ≤ q.num ∧ q.num < (2 : ℤ) ^ 64 then some q.num.toNat else none
  | _ => none

/-- Deserializing a `u32` field: an integral, in-range JSON number. -/
def Json.asU32 : Json → Option Nat
  | .num q => if q.den = 1 ∧ 0 ≤ q.num ∧ q.num < (2 : ℤ) ^ 32 then some q.num.toNat else none
  | _ => none

/- ---------- typed events (dex-rs-types + dex-rs-core/traits.rs) ---------- -/

/-- `Trade` from `dex-rs-types/src/lib.rs`. -/
structure Trade where
  id : String
  ts : Nat
  side : Side
  price : NotNanF
  qty : NotNanF
  coin : String
  tid : Nat
deriving DecidableEq

/-- `OrderBookLevel` from `dex-rs-types/src/lib.rs`. -/
structure OrderBookLevel where
  price : NotNanF
  qty : NotNanF
  n : Nat
deriving DecidableEq

/-- `OrderBook` from `dex-rs-types/src/lib.rs`. -/
structure OrderBook where
  coin : String
  ts : Nat
  bids : List OrderBookLevel
  asks : List OrderBookLevel
deriving DecidableEq

/-- `OrderEvent` as constructed in `ws.rs::parse_orders_simd`. -/
structure OrderEvent where
  coin : String
  side : String
  limit_px : String
  sz : String
  oid : Nat
  status : String
  timestamp : Nat
  order_timestamp : Nat
deriving DecidableEq

/-- `FillEvent` as constructed in `ws.rs::parse_fills_simd`. -/
structure FillEvent where
  coin : String
  side : String
  px : String
  sz : String
  oid : Nat
  tid : Nat
  time : Nat
  fee : String
  hash : String
  user : String
deriving DecidableEq

/-- `StreamEvent` from `dex-rs-core/src/traits.rs`.  The `bbo` prices are
plain `f64` (possibly NaN), unlike `Trade`/`OrderBook` which use `NotNan`. -/
inductive StreamEvent
  | trade (t : Trade)
  | bbo (coin : String) (bid_px ask_px : FVal) (timestamp : Nat)
  | l2 (ob : OrderBook)
  | order (o : OrderEvent)
  | fill (f : FillEvent)
deriving DecidableEq

/-- The subscription kind a given event variant belongs to. -/
def StreamEvent.kindOf : StreamEvent → StreamKind
  | .trade _ => .trades
  | .bbo _ _ _ _ => .bbo
  | .l2 _ => .l2Book
  | .order _ => .orders
  | .fill _ => .fills

/- ---------- borrowed wire records (ws.rs serde structs) ---------- -/

/-- `TradeDataBorrowed` from `ws.rs`. -/
structure TradeData where
  coin : String
  side : String
  px : String
  sz : String
  time : Nat
  hash : String
  tid : Nat
deriving DecidableEq

/-- `L2LevelBorrowed` from `ws.rs`. -/
structure L2Level where
  px : String
  sz : String
  n : Nat
deriving DecidableEq

/-- `L2BookDataBorrowed` from `ws.rs` (`levels: [Vec<L2LevelBorrowed>; 2]`). -/
structure L2BookData where
  coin : String
  time : Nat
  bids : List L2Level
  asks : List L2Level
deriving DecidableEq

/-- `BboDataBorrowed` from `ws.rs`. -/
structure BboData where
  coin : String
  time : Nat
  best_bid : String
  best_ask : String
deriving DecidableEq

/-- `BasicOrderBorrowed` from `ws.rs`. -/
structure BasicOrder where
  coin : String
  side : String
  limit_px : String
  sz : String
  oid : Nat
  timestamp : Nat
deriving DecidableEq

/-- `OrderUpdateBorrowed` from `ws.rs`. -/
structure OrderUpdate where
  order : BasicOrder
  status : String
  status_timestamp : Nat
deriving DecidableEq

/-- `UserFillBorrowed` from `ws.rs`. -/
structure WsUserFill where
  coin : String
  px : String
  sz : String
  side : String
  time : Nat
  hash : String
  oid : Nat
  tid : Nat
  fee : String
deriving DecidableEq

/-- `UserFillsDataBorrowed` from `ws.rs`. -/
structure UserFillsData where
  user : String
  fills : List WsUserFill
deriving DecidableEq

/- ---------- serde decoders (from_borrowed_value) ---------- -/

def decodeTradeData (j : Json) : Option TradeData := do
  let coin ← (j.get "coin").bind Json.asStr
  let side ← (j.get "side").bind Json.asStr
  let px ← (j.get "px").bind Json.asStr
  let sz ← (j.get "sz").bind Json.asStr
  let time ← (j.get "time").bind Json.asU64
  let hash ← (j.get "hash").bind Json.asStr
  let tid ← (j.get "tid").bind Json.asU64
  pure { coin := coin, side := side, px := px, sz := sz, time := time, hash := hash, tid := tid }

/-- `from_borrowed_value::<Vec<TradeDataBorrowed>>`. -/
def decodeTradeList (j : Json) : Option (List TradeData) :=
  match j with
  | .arr xs => xs.mapM decodeTradeData
  | _ => none

def decodeBboData (j : Json) : Option BboData := do
  let coin ← (j.get "coin").bind Json.asStr
  let time ← (j.get "time").bind Json.asU64
  let bb ← (j.get "bestBid").bind Json.asStr
  let ba ← (j.get "bestAsk").bind Json.asStr
  pure { coin := coin, time := time, best_bid := bb, best_ask := ba }

def decodeL2Level (j : Json) : Option L2Level := do
  let px ← (j.get "px").bind Json.asStr
  let sz ← (j.get "sz").bind Json.asStr
  let n ← (j.get "n").bind Json.asU32
  pure { px := px, sz := sz, n := n }

/-- `from_borrowed_value::<L2BookDataBorrowed>`: `levels` must be an array
of exactly two arrays (bids, asks). -/
def decodeL2Book (j : Json) : Option L2BookData := do
  let coin ← (j.get "coin").bind Json.asStr
  let time ← (j.get "time").bind Json.asU64
  match j.get "levels" with
  | some (.arr [.arr bs, .arr as]) => do
    let bids ← bs.mapM decodeL2Level
    let asks ← as.mapM decodeL2Level
    pure { coin := coin, time := time, bids := bids, asks := asks }
  | _ => none

def decodeBasicOrder (j : Json) : Option BasicOrder := do
  let coin ← (j.get "coin").bind Json.asStr
  let side ← (j.get "side").bind Json.asStr
  let lpx ← (j.get "limitPx").bind Json.asStr
  let sz ← (j.get "sz").bind Json.asStr
  let oid ← (j.get "oid").bind Json.asU64
  let ts ← (j.get "timestamp").bind Json.asU64
  pure { coin := coin, side := side, limit_px := lpx, sz := sz, oid := oid, timestamp := ts }

def decodeOrderUpdate (j : Json) : Option OrderUpdate := do
  let ord ← (j.get "order").bind decodeBasicOrder
  let status ← (j.get "status").bind Json.asStr
  let st ← (j.get "statusTimestamp").bind Json.asU64
  pure { order := ord, status := status, status_timestamp := st }

/-- `from_borrowed_value::<Vec<OrderUpdateBorrowed>>`. -/
def decodeOrderList (j : Json) : Option (List OrderUpdate) :=
  match j with
  | .arr xs => xs.mapM decodeOrderUpdate
  | _ => none

def decodeWsUserFill (j : Json) : Option WsUserFill := do
  let coin ← (j.get "coin").bind Json.asStr
  let px ← (j.get "px").bind Json.asStr
  let sz ← (j.get "sz").bind Json.asStr
  let side ← (j.get "side").bind Json.asStr
  let time ← (j.get "time").bind Json.asU64
  let hash ← (j.get "hash").bind Json.asStr
  let oid ← (j.get "oid").bind Json.asU64
  let tid ← (j.get "tid").bind Json.asU64
  let fee ← (j.get "fee").bind Json.asStr
  pure { coin := coin, px := px, sz := sz, side := side, time := time, hash := hash,
         oid := oid, tid := tid, fee := fee }

def decodeUserFillsData (j : Json) : Option UserFillsData := do
  let user ← (j.get "user").bind Json.asStr
  let fills ← match j.get "fills" with
    | some (.arr xs) => xs.mapM decodeWsUserFill
    | _ => none
  pure { user := user, fills := fills }

/- ---------- frame demultiplexer (ws.rs parse_*_simd / handle_message) ---------- -/

/-- Shared shape of every `parse_*_simd` function: look up `"data"`, run the
serde decoder, and on structural-decode failure fall through to `Ok(None)`. -/
def withData {α : Type} (val : Json) (dec : Json → Option α)
    (build : α → PRes (Option StreamEvent)) : PRes (Option StreamEvent) :=
  match val.get "data" with
  | some data =>
    match dec data with
    | some x => build x
    | none => .ok none
  | none => .ok none

/-- Body of `parse_trades_simd` after decoding: take the first trade of the
batch (if any), parse its price and size strings, wrap them in the
panicking-on-NaN `price`/`qty` constructors. -/
def buildTradeEvent : List TradeData → PRes (Option StreamEvent)
  | [] => .ok none
  | t :: _ =>
    match parseF64 t.px with
    | none => .err (.parse "Invalid trade price")
    | some pv =>
      match price pv with
      | .ok p =>
        match parseF64 t.sz with
        | none => .err (.parse "Invalid trade size")
        | some sv =>
          match qty sv with
          | .ok q =>
            .ok (some (.trade
              { id := t.hash, ts := t.time,
                side := if t.side == "B" then Side.buy else Side.sell,
                price := p, qty := q, coin := t.coin, tid := t.tid }))
          | .err e => .err e
          | .panic m => .panic m
      | .err e => .err e
      | .panic m => .panic m

/-- `parse_trades_simd` from `ws.rs`. -/
def parseTradesSimd (val : Json) : PRes (Option StreamEvent) :=
  withData val decodeTradeList buildTradeEvent

/-- Body of `parse_bbo_simd` after decoding: the `bestBid`/`bestAsk` strings
are parsed straight into plain `f64` fields (no NaN check). -/
def buildBboEvent (b : BboData) : PRes (Option StreamEvent) :=
  match parseF64 b.best_bid with
  | none => .err (.parse "Invalid bid price")
  | some bid =>
    match parseF64 b.best_ask with
    | none => .err (.parse "Invalid ask price")
    | some ask => .ok (some (.bbo b.coin bid ask b.time))

/-- `parse_bbo_simd` from `ws.rs`. -/
def parseBboSimd (val : Json) : PRes (Option StreamEvent) :=
  withData val decodeBboData buildBboEvent

/-- One order-book level: parse price then quantity, wrapping each in the
panicking-on-NaN constructor (error strings are side-specific). -/
def buildLevel (pmsg qmsg : String) (lv : L2Level) : PRes OrderBookLevel :=
  match parseF64 lv.px with
  | none => .err (.parse pmsg)
  | some pv =>
    match price pv with
    | .ok p =>
      match parseF64 lv.sz with
      | none => .err (.parse qmsg)
      | some sv =>
        match qty sv with
        | .ok q => .ok { price := p, qty := q, n := lv.n }
        | .err e => .err e
        | .panic m => .panic m
    | .err e => .err e
    | .panic m => .panic m

/-- Left-to-right short-circuiting `collect::<Result<Vec<_>,_>>`. -/
def buildLevels (pmsg qmsg : String) : List L2Level → PRes (List OrderBookLevel)
  | [] => .ok []
  | lv :: rest =>
    match buildLevel pmsg qmsg lv with
    | .ok x =>
      match buildLevels pmsg qmsg rest with
      | .ok xs => .ok (x :: xs)
      | .err e => .err e
      | .panic m => .panic m
    | .err e => .err e
    | .panic m => .panic m

/-- Body of `parse_l2_book_simd` after decoding: bids first, then asks. -/
def buildL2Event (b : L2BookData) : PRes (Option StreamEvent) :=
  match buildLevels "Invalid L2 bid price" "Invalid L2 bid quantity" b.bids with
  | .ok bids =>
    match buildLevels "Invalid L2 ask price" "Invalid L2 ask quantity" b.asks with
    | .ok asks => .ok (some (.l2 { coin := b.coin, ts := b.time, bids := bids, asks := asks }))
    | .err e => .err e
    | .panic m => .panic m
  | .err e => .err e
  | .panic m => .panic m

/-- `parse_l2_book_simd` from `ws.rs`. -/
def parseL2BookSimd (val : Json) : PRes (Option StreamEvent) :=
  withData val decodeL2Book buildL2Event

/-- Body of `parse_orders_simd` after decoding: first update of the batch,
all fields copied as strings/integers (no numeric parsing at all). -/
def buildOrderEvent : List OrderUpdate → PRes (Option StreamEvent)
  | [] => .ok none
  | u :: _ =>
    .ok (some (.order
      { coin := u.order.coin, side := u.order.side, limit_px := u.order.limit_px,
        sz := u.order.sz, oid := u.order.oid, status := u.status,
        timestamp := u.status_timestamp, order_timestamp := u.order.timestamp }))

/-- `parse_orders_simd` from `ws.rs`. -/
def parseOrdersSimd (val : Json) : PRes (Option StreamEvent) :=
  withData val decodeOrderList buildOrderEvent

/-- Body of `parse_fills_simd` after decoding: first fill of the batch,
all fields copied as strings/integers (no numeric parsing at all). -/
def buildFillEvent (user : String) : List WsUserFill → PRes (Option StreamEvent)
  | [] => .ok none
  | f :: _ =>
    .ok (some (.fill
      { coin := f.coin, side := f.side, px := f.px, sz := f.sz, oid := f.oid,
        tid := f.tid, time := f.time, fee := f.fee, hash := f.hash, user := user }))

/-- Wrapper matching the `UserFillsDataBorrowed` payload shape. -/
def buildFillsEvent (fd : UserFillsData) : PRes (Option StreamEvent) :=
  buildFillEvent fd.user fd.fills

/-- `parse_fills_simd` from `ws.rs`. -/
def parseFillsSimd (val : Json) : PRes (Option StreamEvent) :=
  withData val decodeUserFillsData buildFillsEvent

/-- The control-acknowledgment test at the top of `handle_message`:
`val.get("method").map(|v| v.as_str()) == Some(Some("subscriptionResponse"))`. -/
def isSubResponse (val : Json) : Bool :=
  (val.get "method").map Json.asStr == some (some "subscriptionResponse")

/-- `handle_message` from `ws.rs`, for an already-JSON-parsed frame: ignore
subscription acknowledgments, dispatch on the subscription kind, and (when a
typed event was produced) send it on the output channel.  The `ok` payload is
the event sent, if any. -/
def handleMessage (val : Json) (kind : StreamKind) : PRes (Option StreamEvent) :=
  if isSubResponse val then .ok none
  else
    match kind with
    | .bbo => parseBboSimd val
    | .trades => parseTradesSimd val
    | .l2Book => parseL2BookSimd val
    | .orders => parseOrdersSimd val
    | .fills => parseFillsSimd val

/-- The events `handle_message` actually sent on the output channel. -/
def eventsSent (r : PRes (Option StreamEvent)) : List StreamEvent :=
  match r with
  | .ok (some e) => [e]
  | _ => []

/- ---------- subscription supervisor (ws.rs subscribe) ---------- -/

/-- `min(BASE_DELAY_MS * 2u64.pow(retry_count.saturating_sub(1)), MAX_DELAY_MS)`
with `BASE_DELAY_MS = 1000`, `MAX_DELAY_MS = 30000` (`Nat` subtraction is
exactly `saturating_sub`). -/
def backoffDelay (rc : Nat) : Nat :=
  min (1000 * 2 ^ (rc - 1)) 30000

/-- `(retry_count as u64 * 137) % (delay_ms / 4 + 1)`. -/
def jitter (rc : Nat) : Nat :=
  (rc * 137) % (backoffDelay rc / 4 + 1)

/-- `total_delay = delay_ms + jitter`, the argument of the backoff sleep. -/
def totalDelay (rc : Nat) : Nat :=
  backoffDelay rc + jitter rc

/-- Observable behaviour of one connection attempt: the transport `connect`
fails, the handshake `send_message` fails, or the connection serves a
sequence of frames and then `read_message` fails with `readErr`.  The read
loop in `connect_and_subscribe` has no other exit, so there is no
"connection ended normally" alternative. -/
inductive Attempt
  | connectFail (e : DexError)
  | sendFail (e : DexError)
  | run (reads : List Json) (readErr : DexError)

/-- The inner read loop of `connect_and_subscribe`: each successfully read
frame is dispatched to `handle_message` whose parse errors are ignored; a
panic inside `handle_message` unwinds the whole task; a read error is
returned.  Produces the events sent so far and the loop outcome (never
`ok`). -/
def readLoop (kind : StreamKind) : List Json → DexError → List StreamEvent × PRes Unit
  | [], e => ([], .err e)
  | j :: rest, e =>
    match handleMessage j kind with
    | .panic m => ([], .panic m)
    | r =>
      let t := readLoop kind rest e
      (eventsSent r ++ t.1, t.2)

/-- `connect_and_subscribe` from `ws.rs`: connect, send the handshake, then
run the read loop.  Every exit path returns an error (or unwinds). -/
def connectAndSubscribe (kind : StreamKind) : Attempt → List StreamEvent × PRes Unit
  | .connectFail e => ([], .err e)
  | .sendFail e => ([], .err e)
  | .run reads e => readLoop kind reads e

/-- How the supervised task's trace ended. -/
inductive TaskEnd
  | running (rc : Nat)
  | stoppedCap
  | crashed (msg : String)
deriving DecidableEq

/-- The retry loop spawned by `subscribe` (`MAX_RETRIES = 10`), driven by a
trace of connection attempts.  Returns all events forwarded to the caller,
the list of backoff sleeps performed, and how (or whether) the task ended:
on `Ok` the counter resets and the loop sleeps `totalDelay 0`; on `Err` the
counter increments and the loop breaks (no further sleep) once it
reaches 10; a panic crashes the task. -/
def superviseLoopA (kind : StreamKind) : Nat → List Attempt → List StreamEvent × List Nat × TaskEnd
  | rc, [] => ([], [], .running rc)
  | rc, a :: rest =>
    match connectAndSubscribe kind a with
    | (evs, .panic m) => (evs, [], .crashed m)
    | (evs, .ok _) =>
      let r := superviseLoopA kind 0 rest
      (evs ++ r.1, totalDelay 0 :: r.2.1, r.2.2)
    | (evs, .err _) =>
      if rc + 1 ≥ 10 then (evs, [], .stoppedCap)
      else
        let r := superviseLoopA kind (rc + 1) rest
        (evs ++ r.1, totalDelay (rc + 1) :: r.2.1, r.2.2)

/-- The kind-specific subscription payload built at the top of `subscribe`,
failing (before any connection attempt) exactly when the kind's required
field is missing. -/
def buildSubscription (kind : StreamKind) (coin addr : Option String) : Except DexError Json :=
  match kind with
  | .bbo =>
    match coin with
    | some c => .ok (.obj [("type", .str "bbo"), ("coin", .str c)])
    | none => .error (.other "coin required for BBO")
  | .trades =>
    match coin with
    | some c => .ok (.obj [("type", .str "trades"), ("coin", .str c)])
    | none => .error (.other "coin required for trades")
  | .l2Book =>
    match coin with
    | some c => .ok (.obj [("type", .str "l2Book"), ("coin", .str c)])
    | none => .error (.other "coin required for l2Book")
  | .orders =>
    match addr with
    | some u => .ok (.obj [("type", .str "orderUpdates"), ("user", .str u)])
    | none => .error (.other "address required for orders")
  | .fills =>
    match addr with
    | some u => .ok (.obj [("type", .str "userFills"), ("user", .str u)])
    | none => .error (.other "address required for fills")

/-- The full handshake message `{"method":"subscribe","subscription":...}`. -/
def buildSubscribeMsg (kind : StreamKind) (coin addr : Option String) : Except DexError Json :=
  (buildSubscription kind coin addr).map
    (fun sub => .obj [("method", .str "subscribe"), ("subscription", sub)])

set_option linter.unusedVariables false in
/-- `HlWs::subscribe`: build the handshake payload (propagating a missing
required field as an error) and otherwise spawn the supervisor task and
return `Ok(())` immediately.  The spawned task's connection attempts
(`attempts`) cannot influence the returned value. -/
def subscribe (kind : StreamKind) (coin addr : Option String)
    (attempts : List Attempt) : Except DexError Unit :=
  match buildSubscribeMsg kind coin addr with
  | .error e => .error e
  | .ok _ => .ok ()

/- ---------- transport read loop (tokio_fastws.rs) ---------- -/

/-- WebSocket frame opcodes handled by `FastWsConnection::read_message`. -/
inductive OpCode
  | text
  | binary
  | close
  | ping
  | pong
  | continuation
deriving DecidableEq

/-- One result of `ws.read_frame()`: a frame, or a transport read failure. -/
inductive WsRead
  | frame (op : OpCode) (payload : List Nat)
  | fail (msg : String)

/-- The observable outcome of `read_message`. -/
inductive ReadOutcome
  | msg (payload : List Nat)
  | err (e : DexError)
  | pending
deriving DecidableEq

/-- `FastWsConnection::read_message`: loop over incoming frames; Text/Binary
payloads are returned; Close and transport failures are errors; Ping frames
are answered with a Pong carrying the same payload (recorded in the first
component) and skipped; Pong frames are silently skipped; a Continuation
frame is an error.  `pending` models a read still blocked when the supplied
trace runs out. -/
def readMessage : List WsRead → List (List Nat) × ReadOutcome
  | [] => ([], .pending)
  | .fail m :: _ => ([], .err (.ws ("Failed to read frame: " ++ m)))
  | .frame .text p :: _ => ([], .msg p)
  | .frame .binary p :: _ => ([], .msg p)
  | .frame .close _ :: _ => ([], .err (.ws "Connection closed by peer"))
  | .frame .ping p :: rest =>
    let t := readMessage rest
    (p :: t.1, t.2)
  | .frame .pong _ :: rest => readMessage rest
  | .frame .continuation _ :: _ => ([], .err (.ws "Unexpected continuation frame"))

/-- Payloads of the Text/Binary frames in a read trace. -/
def dataPayloads (ins : List WsRead) : List (List Nat) :=
  ins.filterMap (fun r =>
    match r with
    | .frame .text p => some p
    | .frame .binary p => some p
    | _ => none)

/- ---------- signing pipeline (signer.rs, client.rs) ---------- -/

/-- `Tif` from `dex-rs-types/src/lib.rs`. -/
inductive Tif
  | ioc
  | gtc
  | alo
deriving DecidableEq

/-- `OrderReq` from `dex-rs-types/src/lib.rs`.  `px`/`qty` are `NotNan<f64>`
values, modelled by the exact rational they display as. -/
structure OrderReq where
  coin : String
  is_buy : Bool
  px : ℚ
  qty : ℚ
  tif : Tif
  reduce_only : Bool
  cloid : Option String
deriving DecidableEq

/-- `LimitOrder` from `signer.rs`. -/
structure LimitOrder where
  tif : String
deriving DecidableEq

/-- `OrderType` from `signer.rs`. -/
structure OrderType where
  limit : LimitOrder
deriving DecidableEq

/-- The canonical `Order` from `signer.rs` (field order is part of the wire
contract: a, b, p, s, r, t, c). -/
structure Order where
  a : Nat
  b : Bool
  p : String
  s : String
  r : Bool
  t : OrderType
  c : String
deriving DecidableEq

/-- `OrderAction` from `signer.rs`. -/
structure OrderAction where
  action_type : String
  orders : List Order
  grouping : String
deriving DecidableEq

/-- `UserSignedAction` from `signer.rs`. -/
structure UserSignedAction where
  action : OrderAction
deriving DecidableEq

/-- Helper for `fmtF64`: print a nonnegative rational with a finite decimal
expansion the way Rust's `Display for f64` prints finite values — minimal
digits, no trailing zeros, no decimal point for integers. -/
def fmtPos (q : ℚ) : String :=
  match (List.range 1100).find? (fun k => (q * (10 : ℚ) ^ k).den == 1) with
  | some k =>
    let m := (q * (10 : ℚ) ^ k).num.toNat
    if k == 0 then toString m
    else
      let s := toString m
      let s := if s.length < k + 1 then String.mk (List.replicate (k + 1 - s.length) '0') ++ s else s
      let l := s.data
      String.mk (l.take (l.length - k)) ++ "." ++ String.mk (l.drop (l.length - k))
  | none => toString q.num ++ "/" ++ toString q.den

/-- Model of `format!("{}", v)` for a finite non-NaN `f64` value. -/
def fmtF64 (q : ℚ) : String :=
  if q < 0 then "-" ++ fmtPos (-q) else fmtPos q

/-- `OrderAction::from_req` from `signer.rs`: the canonical action
hard-codes asset index 0 (see the `TODO: need proper asset mapping`),
renders price and size with `format!("{}", ..)`, maps the time-in-force
enum to its wire string, and stores the nonce as the client-id field `c`.
It never reads `req.coin` or `req.cloid`. -/
def OrderAction.from_req (req : OrderReq) (nonce : Nat) : OrderAction :=
  { action_type := "order",
    orders := [{
      a := 0,
      b := req.is_buy,
      p := fmtF64 req.px,
      s := fmtF64 req.qty,
      r := req.reduce_only,
      t := { limit := { tif :=
        match req.tif with
        | .ioc => "Ioc"
        | .gtc => "Gtc"
        | .alo => "Alo" } },
      c := toString nonce }],
    grouping := "na" }

/- MessagePack encoding as produced by `rmp_serde::to_vec` (compact form:
structs as arrays, strings length-prefixed, integers minimally encoded). -/

/-- Big-endian byte expansion, `k` bytes. -/
def natBytesBE (n k : Nat) : List Nat :=
  (List.range k).reverse.map (fun i => n / 256 ^ i % 256)

/-- Minimal MessagePack unsigned-integer encoding. -/
def mpUint (n : Nat) : List Nat :=
  if n < 128 then [n]
  else if n < 256 then [0xcc, n]
  else if n < 65536 then [0xcd] ++ natBytesBE n 2
  else if n < 4294967296 then [0xce] ++ natBytesBE n 4
  else [0xcf] ++ natBytesBE n 8

/-- UTF-8 encoding of one scalar value. -/
def utf8Char (c : Char) : List Nat :=
  let n := c.toNat
  if n < 0x80 then [n]
  else if n < 0x800 then [0xc0 + n / 64, 0x80 + n % 64]
  else if n < 0x10000 then [0xe0 + n / 4096, 0x80 + n / 64 % 64, 0x80 + n % 64]
  else [0xf0 + n / 262144, 0x80 + n / 4096 % 64, 0x80 + n / 64 % 64, 0x80 + n % 64]

def utf8Bytes (s : String) : List Nat :=
  (s.data.map utf8Char).flatten

/-- MessagePack string encoding (fixstr / str8 / str16 / str32). -/
def mpStr (s : String) : List Nat :=
  let b := utf8Bytes s
  let len := b.length
  (if len < 32 then [0xa0 + len]
   else if len < 256 then [0xd9, len]
   else if len < 65536 then [0xda] ++ natBytesBE len 2
   else [0xdb] ++ natBytesBE len 4) ++ b

def mpBool (b : Bool) : List Nat :=
  [if b then 0xc3 else 0xc2]

/-- MessagePack array header (fixarray / array16 / array32). -/
def mpArrayHeader (n : Nat) : List Nat :=
  if n < 16 then [0x90 + n]
  else if n < 65536 then [0xdc] ++ natBytesBE n 2
  else [0xdd] ++ natBytesBE n 4

def mpLimitOrder (l : LimitOrder) : List Nat :=
  mpArrayHeader 1 ++ mpStr l.tif

def mpOrderType (t : OrderType) : List Nat :=
  mpArrayHeader 1 ++ mpLimitOrder t.limit

def mpOrder (o : Order) : List Nat :=
  mpArrayHeader 7 ++ mpUint o.a ++ mpBool o.b ++ mpStr o.p ++ mpStr o.s
    ++ mpBool o.r ++ mpOrderType o.t ++ mpStr o.c

def mpOrderAction (a : OrderAction) : List Nat :=
  mpArrayHeader 3 ++ mpStr a.action_type
    ++ mpArrayHeader a.orders.length ++ (a.orders.map mpOrder).flatten
    ++ mpStr a.grouping

/-- `rmp_serde::to_vec(&user_signed_action)`. -/
def msgpackEncode (u : UserSignedAction) : List Nat :=
  mpArrayHeader 1 ++ mpOrderAction u.action

/-- Lowercase hex digit. -/
def hexDigit (n : Nat) : Char :=
  if n < 10 then Char.ofNat (48 + n) else Char.ofNat (87 + n)

/-- `hex::encode` of a byte sequence. -/
def hexEncode (bs : List Nat) : String :=
  String.mk ((bs.map (fun b => [hexDigit (b / 16), hexDigit (b % 16)])).flatten)

/-- `HlSigner::sign_order` from `signer.rs`: build the canonical action from
the request and nonce, MessagePack-encode it, hash the bytes, sign the
digest, and render `"0x" ++ hex`.  The keccak-256 hash and the (RFC 6979
deterministic) ECDSA signing step are external pure functions of their
inputs; the theorem statements quantify over them. -/
def signOrder (keccak : List Nat → List Nat) (ecSign : String → List Nat → List Nat)
    (key : String) (ord : OrderReq) (nonce : Nat) : String :=
  let action := OrderAction.from_req ord nonce
  let bytes := msgpackEncode { action := action }
  let hash := keccak bytes
  let sig := ecSign key hash
  "0x" ++ hexEncode sig

/-- The nonce `Hyperliquid::place_order` passes to `sign_order` on every
invocation: `let nonce = 0; // TODO: real nonce fetch`. -/
def placeOrderNonce : Nat := 0

/- ---------- concrete inputs used by the theorems below ---------- -/

/-- A trades data frame whose price string is `"NaN"` (which Rust's
`str::parse::<f64>` accepts). -/
def nanTradeFrame : Json :=
  .obj [("data", .arr [.obj [("coin", .str "BTC"), ("side", .str "B"), ("px", .str "NaN"),
    ("sz", .str "1"), ("time", .num 1), ("hash", .str "h"), ("tid", .num 5)]])]

/-- The payload array of `abcTradeFrame`. -/
def abcTradeArr : Json :=
  .arr [.obj [("coin", .str "BTC"), ("side", .str "B"), ("px", .str "abc"),
    ("sz", .str "1"), ("time", .num 1), ("hash", .str "h"), ("tid", .num 5)]]

/-- A trades data frame whose price string is `"abc"` (not a float at all). -/
def abcTradeFrame : Json := .obj [("data", abcTradeArr)]

/-- The decoded record of the single trade in `abcTradeFrame`. -/
def abcTradeData : TradeData :=
  { coin := "BTC", side := "B", px := "abc", sz := "1", time := 1, hash := "h", tid := 5 }

/-- A well-formed trades data frame. -/
def okTradeFrame : Json :=
  .obj [("data", .arr [.obj [("coin", .str "BTC"), ("side", .str "B"), ("px", .str "50000"),
    ("sz", .str "3"), ("time", .num 1234567890), ("hash", .str "abcdef123456"),
    ("tid", .num 12345)]])]

/-- The event `okTradeFrame` decodes to. -/
def okTradeEvent : StreamEvent :=
  .trade { id := "abcdef123456", ts := 1234567890, side := .buy, price := .num 50000,
           qty := .num 3, coin := "BTC", tid := 12345 }

/-- A BBO data frame whose best-bid string is `"NaN"`. -/
def bboNanFrame : Json :=
  .obj [("data", .obj [("coin", .str "BTC"), ("time", .num 123),
    ("bestBid", .str "NaN"), ("bestAsk", .str "1")])]

/-- A user-fills data frame whose price string is `"abc"`. -/
def fillsAbcFrame : Json :=
  .obj [("data", .obj [("user", .str "0xu"),
    ("fills", .arr [.obj [("coin", .str "BTC"), ("px", .str "abc"), ("sz", .str "1"),
      ("side", .str "B"), ("time", .num 7), ("hash", .str "h"), ("oid", .num 1),
      ("tid", .num 2), ("fee", .str "0.5")]])])]

/-- The fill event `fillsAbcFrame` decodes to: the `"abc"` price is
forwarded verbatim. -/
def fillAbcEvent : FillEvent :=
  { coin := "BTC", side := "B", px := "abc", sz := "1", oid := 1, tid := 2, time := 7,
    fee := "0.5", hash := "h", user := "0xu" }

/-- A subscription acknowledgment control frame. -/
def ackFrame : Json := .obj [("method", .str "subscriptionResponse")]

/-- A connection that is accepted, serves one (ack) frame without erroring,
and then dies with a read error — the closest the code can come to "the
inner read loop ran without immediately erroring". -/
def goodAttempt : Attempt := .run [ackFrame] (.ws "stream ended")

/-- A connection attempt that fails at `connect`. -/
def failAttempt : Attempt := .connectFail (.ws "connect refused")

/-- Order request for coin "BTC" (the repository's own test fixture). -/
def reqBTC : OrderReq :=
  { coin := "BTC", is_buy := true, px := 50000, qty := 1 / 1000, tif := .gtc,
    reduce_only := false, cloid := none }

/-- The same order request with only the coin changed. -/
def reqETH : OrderReq :=
  { coin := "ETH", is_buy := true, px := 50000, qty := 1 / 1000, tif := .gtc,
    reduce_only := false, cloid := none }

/- ---------- theorems ---------- -/

/-- The inner read loop of `connect_and_subscribe` never exits with `Ok`:
its only exits are read errors (returned) and panics (unwinding). -/
theorem readLoop_never_ok (kind : StreamKind) :
    ∀ (reads : List Json) (e : DexError), ((readLoop kind reads e).2).isOk = false := by
  intro reads e
  induction reads with
  | nil => rfl
  | cons j rest ih =>
    cases h : handleMessage j kind with
    | panic m => simp [readLoop, h, PRes.isOk]
    | ok v => simpa [readLoop, h] using ih
    | err e' => simpa [readLoop, h] using ih

/-- Claim C1: the spec says one successful connection resets the
consecutive-failure counter to zero, so the next delay after a later
failure is the base delay again.  In the code this cannot happen:
`connect_and_subscribe` has no `Ok` exit at all (its read loop only
returns on error), so the `Ok => retry_count = 0` arm of the retry loop is
dead code.  A connection that serves frames and then drops still increments
the counter: after one such "successful" connection followed by one
failure the counter is 2 and the next pre-jitter delay is 2000 ms,
not the 1000 ms base. -/
theorem retry_reset_unreachable :
    (∀ (kind : StreamKind) (a : Attempt), ((connectAndSubscribe kind a).2).isOk = false) ∧
    superviseLoopA .trades 0 [goodAttempt, failAttempt] =
      ([], [totalDelay 1, totalDelay 2], .running 2) ∧
    backoffDelay 2 = 2000 ∧ backoffDelay 2 ≠ 1000 := by
  refine ⟨?_, by decide, by decide, by decide⟩
  intro kind a
  cases a with
  | connectFail e => rfl
  | sendFail e => rfl
  | run reads e => exact readLoop_never_ok kind reads e

/-- Claim C3: the spec says every `place_order` invocation carries its own
fresh nonce.  In the code the nonce is the hard-coded constant 0
(`let nonce = 0; // TODO: real nonce fetch`), so every invocation signs
with nonce 0 and renders the client-id field `c` as `"0"`. -/
theorem place_order_nonce_constant :
    placeOrderNonce = 0 ∧
    (∀ r : OrderReq, (OrderAction.from_req r placeOrderNonce).orders.map Order.c = ["0"]) :=
  ⟨rfl, fun _ => rfl⟩

/-- Claim C4: the canonical action hard-codes asset index 0 and never reads
`req.coin`, so two order requests that agree on `is_buy`, `px`, `qty`,
`tif` and `reduce_only` but differ in `coin` produce the same canonical
action, hence (for any hash and signing functions) the same signature. -/
theorem sign_order_ignores_coin
    (keccak : List Nat → List Nat) (ecSign : String → List Nat → List Nat)
    (key : String) (r1 r2 : OrderReq) (nonce : Nat)
    (hb : r1.is_buy = r2.is_buy) (hp : r1.px = r2.px) (hq : r1.qty = r2.qty)
    (ht : r1.tif = r2.tif) (hr : r1.reduce_only = r2.reduce_only) :
    signOrder keccak ecSign key r1 nonce = signOrder keccak ecSign key r2 nonce := by
  have ha : OrderAction.from_req r1 nonce = OrderAction.from_req r2 nonce := by
    simp [OrderAction.from_req, hb, hp, hq, ht, hr]
  simp [signOrder, ha]

/-- Witness for C4: `reqBTC` and `reqETH` differ only in the coin and sign
identically (instantiating the hash and signing stages with concrete
functions). -/
theorem sign_order_ignores_coin_witness :
    reqBTC.is_buy = reqETH.is_buy ∧ reqBTC.px = reqETH.px ∧ reqBTC.qty = reqETH.qty ∧
    reqBTC.tif = reqETH.tif ∧ reqBTC.reduce_only = reqETH.reduce_only ∧
    signOrder (fun l => l) (fun _ l => l) "k" reqBTC 12345 =
      signOrder (fun l => l) (fun _ l => l) "k" reqETH 12345 :=
  ⟨rfl, rfl, rfl, rfl, rfl,
   sign_order_ignores_coin (fun l => l) (fun _ l => l) "k" reqBTC reqETH 12345
     rfl rfl rfl rfl rfl⟩

/-- Claim C5: for failure counts up to the retry cap the total backoff
delay is non-decreasing, the pre-jitter delay never exceeds 30000 ms, and
the jitter adds at most `delay / 4` (25%) on top. -/
theorem backoff_monotone_capped :
    (∀ n, n < 10 → 1 ≤ n → totalDelay n ≤ totalDelay (n + 1)) ∧
    (∀ n, backoffDelay n ≤ 30000) ∧
    (∀ n, jitter n ≤ backoffDelay n / 4) := by
  refine ⟨by decide, fun n => Nat.min_le_right _ _, fun n => ?_⟩
  exact Nat.lt_succ_iff.mp (Nat.mod_lt _ (Nat.succ_pos _))

/-- Witness for C5 at failure count 3. -/
theorem backoff_monotone_capped_witness :
    totalDelay 3 ≤ totalDelay 4 ∧ backoffDelay 3 ≤ 30000 ∧ jitter 3 ≤ backoffDelay 3 / 4 :=
  ⟨backoff_monotone_capped.1 3 (by decide) (by decide),
   backoff_monotone_capped.2.1 3, backoff_monotone_capped.2.2 3⟩

/-- Claim C9: the signing pipeline is deterministic — identical key,
request and nonce give identical signature strings — and the signature is
exactly the fixed composition canonical-action → MessagePack → hash →
EC-sign → `"0x" ++ hex`. -/
theorem sign_order_deterministic
    (keccak : List Nat → List Nat) (ecSign : String → List Nat → List Nat)
    (k1 k2 : String) (r1 r2 : OrderReq) (n1 n2 : Nat)
    (hk : k1 = k2) (hr : r1 = r2) (hn : n1 = n2) :
    signOrder keccak ecSign k1 r1 n1 = signOrder keccak ecSign k2 r2 n2 ∧
    signOrder keccak ecSign k1 r1 n1 =
      "0x" ++ hexEncode (ecSign k1 (keccak (msgpackEncode
        { action := OrderAction.from_req r1 n1 }))) := by
  subst hk; subst hr; subst hn; exact ⟨rfl, rfl⟩

/-- Witness for C9 at the spec's example order and nonce 12345. -/
theorem sign_order_deterministic_witness :
    signOrder (fun l => l) (fun _ l => l) "k" reqBTC 12345 =
      signOrder (fun l => l) (fun _ l => l) "k" reqBTC 12345 :=
  (sign_order_deterministic (fun l => l) (fun _ l => l) "k" "k" reqBTC reqBTC 12345 12345
    rfl rfl rfl).1

/-- Counterexample to claim C2: a trades frame whose price string is
`"NaN"` is not treated as a decode failure — `"NaN".parse::<f64>()`
succeeds in Rust, and the `price` constructor then panics
(`expect("NaN price")`), unwinding the spawned task and tearing down
the subscription. -/
theorem demux_nan_trade_panics :
    handleMessage nanTradeFrame .trades = .panic "NaN price" := by decide

/-- Claim C2 as amended: only Trades/L2Book/Bbo parse price/quantity
strings, and only a string that fails to parse as a float at all is
treated as a decode failure (a `Parse` error, no event, swallowed by the
read loop).  A string parsing to NaN is not: in Trades (and L2Book) the
NotNan wrapper panics, in Bbo the NaN flows into the emitted event; and
Orders/Fills forward numeric strings verbatim, still producing an event. -/
theorem demux_numeric_policy_amended :
    (∀ (frame data : Json) (t : TradeData) (rest : List TradeData),
        isSubResponse frame = false →
        frame.get "data" = some data →
        decodeTradeList data = some (t :: rest) →
        parseF64 t.px = none →
        handleMessage frame .trades = .err (.parse "Invalid trade price") ∧
        eventsSent (handleMessage frame .trades) = []) ∧
    (∀ (frame data : Json) (t : TradeData) (rest : List TradeData),
        isSubResponse frame = false →
        frame.get "data" = some data →
        decodeTradeList data = some (t :: rest) →
        parseF64 t.px = some .nan →
        handleMessage frame .trades = .panic "NaN price") ∧
    handleMessage bboNanFrame .bbo = .ok (some (.bbo "BTC" .nan (.num 1) 123)) ∧
    handleMessage fillsAbcFrame .fills = .ok (some (.fill fillAbcEvent)) := by
  refine ⟨?_, ?_, by decide, by decide⟩
  · intro frame data t rest hs hd ht hp
    have h : handleMessage frame .trades = .err (.parse "Invalid trade price") := by
      simp [handleMessage, hs, parseTradesSimd, withData, hd, ht, buildTradeEvent, hp]
    exact ⟨h, by rw [h]; rfl⟩
  · intro frame data t rest hs hd ht hp
    simp [handleMessage, hs, parseTradesSimd, withData, hd, ht, buildTradeEvent, hp, price]

/-- Witness for the amended C2 at the `"abc"` trades frame. -/
theorem demux_numeric_policy_amended_witness :
    isSubResponse abcTradeFrame = false ∧
    abcTradeFrame.get "data" = some abcTradeArr ∧
    decodeTradeList abcTradeArr = some [abcTradeData] ∧
    parseF64 abcTradeData.px = none ∧
    handleMessage abcTradeFrame .trades = .err (.parse "Invalid trade price") ∧
    eventsSent (handleMessage abcTradeFrame .trades) = [] :=
  ⟨by decide, rfl, by decide, by decide,
   (demux_numeric_policy_amended.1 abcTradeFrame abcTradeArr abcTradeData []
      (by decide) rfl (by decide) (by decide)).1,
   (demux_numeric_policy_amended.1 abcTradeFrame abcTradeArr abcTradeData []
      (by decide) rfl (by decide) (by decide)).2⟩

/-- Error-streak lemma for the retry loop: starting `k` failures away from
the cap, a run of `k` erroring connection attempts stops the task at the
cap after backoff waits for the intermediate counts only. -/
theorem supervise_err_streak (kind : StreamKind) :
    ∀ (as : List Attempt) (rc : Nat) (rest : List Attempt),
      (∀ a ∈ as, ((connectAndSubscribe kind a).2).isErr = true) →
      rc + as.length = 10 →
      as ≠ [] →
      (superviseLoopA kind rc (as ++ rest)).2 =
        ((List.range' (rc + 1) (as.length - 1)).map totalDelay, TaskEnd.stoppedCap) := by
  intro as
  induction as with
  | nil => intro rc rest _ _ hne; exact absurd rfl hne
  | cons a as ih =>
    intro rc rest hall hlen _
    have ha : ((connectAndSubscribe kind a).2).isErr = true := hall a (by simp)
    rcases hca : connectAndSubscribe kind a with ⟨evs, out⟩
    rw [hca] at ha
    cases out with
    | ok _ => simp [PRes.isErr] at ha
    | panic m => simp [PRes.isErr] at ha
    | err e =>
      by_cases h10 : rc + 1 ≥ 10
      · have hnil : as = [] := by
          cases as with
          | nil => rfl
          | cons b bs => simp [List.length_cons] at hlen; omega
        subst hnil
        simp [superviseLoopA, hca, h10, List.range']
      · have hne2 : as ≠ [] := by
          cases as with
          | nil => simp [List.length_cons] at hlen; omega
          | cons b bs => simp
        have hall2 : ∀ b ∈ as, ((connectAndSubscribe kind b).2).isErr = true :=
          fun b hb => hall b (by simp [hb])
        have hlen2 : (rc + 1) + as.length = 10 := by
          simp [List.length_cons] at hlen; omega
        have hrec := ih (rc + 1) rest hall2 hlen2 hne2
        obtain ⟨k, hk⟩ : ∃ k, as.length = k + 1 := by
          cases as with
          | nil => exact absurd rfl hne2
          | cons b bs => exact ⟨bs.length, rfl⟩
        have h1 : (superviseLoopA kind (rc + 1) (as ++ rest)).2.1 =
            List.map totalDelay (List.range' (rc + 1 + 1) (as.length - 1)) := by rw [hrec]
        have h2 : (superviseLoopA kind (rc + 1) (as ++ rest)).2.2 = TaskEnd.stoppedCap := by
          rw [hrec]
        simp only [List.cons_append, superviseLoopA, hca, h10, if_false]
        simp [h1, h2, hk, List.range'_succ]
  

/-- Claim C6: when the retry counter reaches the cap (10 consecutive
erroring connection attempts with no intervening success), the retry loop
breaks out without a further backoff wait — exactly the 9 intermediate
waits happen — ending the task (which closes the output channel) rather
than panicking; the remaining trace is never consumed. -/
theorem retry_cap_terminates (kind : StreamKind) (as rest : List Attempt)
    (hlen : as.length = 10)
    (hall : ∀ a ∈ as, ((connectAndSubscribe kind a).2).isErr = true) :
    (superviseLoopA kind 0 (as ++ rest)).2 =
      ([totalDelay 1, totalDelay 2, totalDelay 3, totalDelay 4, totalDelay 5,
        totalDelay 6, totalDelay 7, totalDelay 8, totalDelay 9], TaskEnd.stoppedCap) := by
  have h := supervise_err_streak kind as 0 rest hall (by omega)
    (by intro hnil; rw [hnil] at hlen; simp at hlen)
  rw [h, hlen]
  rfl


/-- Witness for C6: ten consecutive connect failures. -/
theorem retry_cap_terminates_witness :
    (List.replicate 10 failAttempt).length = 10 ∧
    (superviseLoopA .trades 0 (List.replicate 10 failAttempt ++ [])).2 =
      ([totalDelay 1, totalDelay 2, totalDelay 3, totalDelay 4, totalDelay 5,
        totalDelay 6, totalDelay 7, totalDelay 8, totalDelay 9], TaskEnd.stoppedCap) :=
  ⟨by decide,
   retry_cap_terminates .trades (List.replicate 10 failAttempt) [] (by decide)
     (by
       intro a ha
       rw [List.eq_of_mem_replicate ha]
       rfl)⟩


/-- Claim C8: `subscribe` fails (before spawning the supervisor and before
any connection attempt) exactly when the kind's required field is missing
— `coin` for Trades/Bbo/L2Book, `address` for Orders/Fills — and in every
other case returns `Ok`; the spawned task's transport-open, handshake-send
and read failures can never change the value `subscribe` returns. -/
theorem subscribe_fail_fast (kind : StreamKind) (coin addr : Option String)
    (attempts : List Attempt) :
    ((∃ e, subscribe kind coin addr attempts = .error e) ↔
      (((kind = .trades ∨ kind = .bbo ∨ kind = .l2Book) ∧ coin = none) ∨
       ((kind = .orders ∨ kind = .fills) ∧ addr = none))) ∧
    (∀ attempts', subscribe kind coin addr attempts = subscribe kind coin addr attempts') := by
  constructor
  · cases kind <;> cases coin <;> cases addr <;>
      simp [subscribe, buildSubscribeMsg, buildSubscription, Except.map]
  · intro _; rfl

/-- If the shared `withData` wrapper produced an event, the kind-specific
builder produced it. -/
theorem withData_shape {α : Type} (val : Json) (dec : Json → Option α)
    (build : α → PRes (Option StreamEvent)) (e : StreamEvent)
    (h : withData val dec build = .ok (some e)) : ∃ x, build x = .ok (some e) := by
  unfold withData at h
  split at h
  · split at h
    · exact ⟨_, h⟩
    · simp at h
  · simp at h

/-- Every event built by the trades builder is a `trade` event. -/
theorem buildTradeEvent_shape (l : List TradeData) (e : StreamEvent)
    (h : buildTradeEvent l = .ok (some e)) : e.kindOf = .trades := by
  cases l with
  | nil => simp [buildTradeEvent] at h
  | cons t rest =>
    simp only [buildTradeEvent] at h
    repeat' split at h
    all_goals (try simp_all [StreamEvent.kindOf])
    all_goals (subst h; rfl)

/-- Every event built by the BBO builder is a `bbo` event. -/
theorem buildBboEvent_shape (b : BboData) (e : StreamEvent)
    (h : buildBboEvent b = .ok (some e)) : e.kindOf = .bbo := by
  unfold buildBboEvent at h
  repeat' split at h
  all_goals (try simp_all [StreamEvent.kindOf])
  all_goals (subst h; rfl)

/-- Every event built by the L2-book builder is an `l2` event. -/
theorem buildL2Event_shape (b : L2BookData) (e : StreamEvent)
    (h : buildL2Event b = .ok (some e)) : e.kindOf = .l2Book := by
  unfold buildL2Event at h
  repeat' split at h
  all_goals (try simp_all [StreamEvent.kindOf])
  all_goals (subst h; rfl)

/-- Every event built by the order-updates builder is an `order` event. -/
theorem buildOrderEvent_shape (l : List OrderUpdate) (e : StreamEvent)
    (h : buildOrderEvent l = .ok (some e)) : e.kindOf = .orders := by
  cases l with
  | nil => simp [buildOrderEvent] at h
  | cons u rest =>
    simp only [buildOrderEvent, PRes.ok.injEq, Option.some.injEq] at h
    subst h; rfl

/-- Every event built by the fills builder is a `fill` event. -/
theorem buildFillsEvent_shape (fd : UserFillsData) (e : StreamEvent)
    (h : buildFillsEvent fd = .ok (some e)) : e.kindOf = .fills := by
  unfold buildFillsEvent buildFillEvent at h
  split at h
  · simp at h
  · simp only [PRes.ok.injEq, Option.some.injEq] at h
    subst h; rfl

/-- A singleton send means the handler returned `Ok(Some(event))`. -/
theorem eventsSent_eq_single {r : PRes (Option StreamEvent)} {e : StreamEvent}
    (h : eventsSent r = [e]) : r = .ok (some e) := by
  cases r with
  | ok v =>
    cases v with
    | some x => simp [eventsSent] at h; rw [h]
    | none => simp [eventsSent] at h
  | err _ => simp [eventsSent] at h
  | panic _ => simp [eventsSent] at h

/-- Claim C7: for every frame and subscription kind, `handle_message`
sends at most one event; a sent event's variant always matches the
subscription kind; and for the batched kinds (trades, order updates,
fills) the event depends only on the first element of the batch. -/
theorem demux_single_event_variant :
    (∀ (frame : Json) (kind : StreamKind), (eventsSent (handleMessage frame kind)).length ≤ 1) ∧
    (∀ (frame : Json) (kind : StreamKind) (e : StreamEvent),
        eventsSent (handleMessage frame kind) = [e] → e.kindOf = kind) ∧
    (∀ (t : TradeData) (rest : List TradeData), buildTradeEvent (t :: rest) = buildTradeEvent [t]) ∧
    (∀ (u : OrderUpdate) (rest : List OrderUpdate),
        buildOrderEvent (u :: rest) = buildOrderEvent [u]) ∧
    (∀ (user : String) (f : WsUserFill) (rest : List WsUserFill),
        buildFillEvent user (f :: rest) = buildFillEvent user [f]) := by
  refine ⟨?_, ?_, fun t rest => rfl, fun u rest => rfl, fun user f rest => rfl⟩
  · intro frame kind
    cases h : handleMessage frame kind with
    | ok v => cases v <;> simp [eventsSent, h]
    | err e => simp [eventsSent, h]
    | panic m => simp [eventsSent, h]
  · intro frame kind e h
    have hr := eventsSent_eq_single h
    by_cases hs : isSubResponse frame = true
    · unfold handleMessage at hr
      rw [if_pos hs] at hr
      simp at hr
    · unfold handleMessage at hr
      rw [if_neg hs] at hr
      cases kind with
      | trades =>
        obtain ⟨x, hx⟩ := withData_shape _ _ _ _ hr
        exact buildTradeEvent_shape _ _ hx
      | bbo =>
        obtain ⟨x, hx⟩ := withData_shape _ _ _ _ hr
        exact buildBboEvent_shape _ _ hx
      | l2Book =>
        obtain ⟨x, hx⟩ := withData_shape _ _ _ _ hr
        exact buildL2Event_shape _ _ hx
      | orders =>
        obtain ⟨x, hx⟩ := withData_shape _ _ _ _ hr
        exact buildOrderEvent_shape _ _ hx
      | fills =>
        obtain ⟨x, hx⟩ := withData_shape _ _ _ _ hr
        exact buildFillsEvent_shape _ _ hx

/-- Witness for C7 at the repository's own trades test fixture. -/
theorem demux_single_event_variant_witness :
    (eventsSent (handleMessage okTradeFrame .trades)).length ≤ 1 ∧
    eventsSent (handleMessage okTradeFrame .trades) = [okTradeEvent] ∧
    okTradeEvent.kindOf = .trades :=
  ⟨demux_single_event_variant.1 okTradeFrame .trades, by decide,
   demux_single_event_variant.2.1 okTradeFrame .trades okTradeEvent (by decide)⟩

/-- Claim C10: the transport read loop never surfaces keep-alive frames as
data: a Ping is answered with a Pong carrying the same payload and reading
continues, Pongs are skipped silently, Text/Binary payloads are returned,
Close / transport failures / unexpected Continuation frames are errors,
and every payload ever returned as data is the payload of some Text or
Binary frame of the trace. -/
theorem read_message_keepalive :
    (∀ (p : List Nat) (rest : List WsRead),
        readMessage (.frame .ping p :: rest) = (p :: (readMessage rest).1, (readMessage rest).2)) ∧
    (∀ (p : List Nat) (rest : List WsRead),
        readMessage (.frame .pong p :: rest) = readMessage rest) ∧
    (∀ (p : List Nat) (rest : List WsRead), readMessage (.frame .text p :: rest) = ([], .msg p)) ∧
    (∀ (p : List Nat) (rest : List WsRead),
        readMessage (.frame .binary p :: rest) = ([], .msg p)) ∧
    (∀ (p : List Nat) (rest : List WsRead),
        readMessage (.frame .close p :: rest) = ([], .err (.ws "Connection closed by peer"))) ∧
    (∀ (m : String) (rest : List WsRead),
        readMessage (.fail m :: rest) = ([], .err (.ws ("Failed to read frame: " ++ m)))) ∧
    (∀ (ins : List WsRead) (p : List Nat),
        (readMessage ins).2 = .msg p → p ∈ dataPayloads ins) := by
  refine ⟨fun p rest => rfl, fun p rest => rfl, fun p rest => rfl, fun p rest => rfl,
    fun p rest => rfl, fun m rest => rfl, ?_⟩
  intro ins
  induction ins with
  | nil => intro p h; simp [readMessage] at h
  | cons r rest ih =>
    intro p h
    cases r with
    | fail m => simp [readMessage] at h
    | frame op q =>
      cases op with
      | text =>
        simp only [readMessage, ReadOutcome.msg.injEq] at h
        simp [dataPayloads, h]
      | binary =>
        simp only [readMessage, ReadOutcome.msg.injEq] at h
        simp [dataPayloads, h]
      | close => simp [readMessage] at h
      | continuation => simp [readMessage] at h
      | ping =>
        simp only [readMessage] at h
        have := ih p h
        simpa [dataPayloads] using this
      | pong =>
        simp only [readMessage] at h
        have := ih p h
        simpa [dataPayloads] using this

/-- Witness for C10: a ping followed by a text frame returns the text
payload, which is a data payload of the trace. -/
theorem read_message_keepalive_witness :
    (readMessage [.frame .ping [1], .frame .text [2, 3]]).2 = .msg [2, 3] ∧
    [2, 3] ∈ dataPayloads [.frame .ping [1], .frame .text [2, 3]] :=
  ⟨by decide, read_message_keepalive.2.2.2.2.2.2 _ [2, 3] (by decide)⟩

end DexRs
